import Mathlib

/-!
Verification development for the `new_items` module of an egui_plot extension:
four plot-item types (`HRay`, `LinkedYHRay`, `LinkedYText`, `LinkedYPolygon`)
that convert domain-space coordinates into screen-space shapes.

Scalar model: `f64`/`f32` coordinates are modelled as `ℚ`.  The host toolkit
collaborators (coordinate transform, pixel rounding, line styling, colors,
text layout) are not part of the source under review; they are modelled from
the specification, each with a doc comment saying so.  The items themselves
are translated directly from `src/items/new_items.rs`.
-/

/-- Screen-space position (egui `Pos2`), coordinates in points. -/
structure Pos2 where
  x : ℚ
  y : ℚ
deriving DecidableEq

/-- Constructor mirroring egui's `pos2(x, y)`. -/
def pos2 (x y : ℚ) : Pos2 := ⟨x, y⟩

/-- Domain-space plot point (`PlotPoint`). -/
structure PlotPoint where
  x : ℚ
  y : ℚ
deriving DecidableEq

/-- Constructor mirroring `PlotPoint::new(x, y)`. -/
def PlotPoint.new (x y : ℚ) : PlotPoint := ⟨x, y⟩

/-- Color (egui `Color32`): premultiplied sRGBA, one byte per channel. -/
structure Color32 where
  r : ℕ
  g : ℕ
  b : ℕ
  a : ℕ
deriving DecidableEq

/-- The fully transparent color `Color32::TRANSPARENT` (all channels zero). -/
def Color32.TRANSPARENT : Color32 := ⟨0, 0, 0, 0⟩

/-- Modelled from the spec: `Color32::linear_multiply` is the host's
"attenuation by a multiplier" primitive ("stroke color attenuated by a fixed
fill-alpha constant").  The host's exact sRGB/linear round-trip is floating
point; attenuation is modelled as channel-wise multiplication (floored).
The claims only compare colors produced by this function symbolically. -/
def Color32.linearMultiply (c : Color32) (factor : ℚ) : Color32 :=
  ⟨Nat.floor ((c.r : ℚ) * factor), Nat.floor ((c.g : ℚ) * factor),
   Nat.floor ((c.b : ℚ) * factor), Nat.floor ((c.a : ℚ) * factor)⟩

/-- Stroke (egui `Stroke`): width in points plus a color. -/
structure Stroke where
  width : ℚ
  color : Color32
deriving DecidableEq

/-- Constructor mirroring `Stroke::new(width, color)`. -/
def Stroke.new (width : ℚ) (color : Color32) : Stroke := ⟨width, color⟩

/-- The empty stroke `Stroke::NONE` (zero width, transparent). -/
def Stroke.NONE : Stroke := ⟨0, Color32.TRANSPARENT⟩

/-- Line style (egui_plot `LineStyle`). -/
inductive LineStyle where
  | Solid : LineStyle
  | Dotted (spacing : ℚ) : LineStyle
  | Dashed (length : ℚ) : LineStyle
deriving DecidableEq

/-- One-dimensional alignment (egui `Align`). -/
inductive Align where
  | Min : Align
  | Center : Align
  | Max : Align
deriving DecidableEq

/-- Two-axis alignment (egui `Align2`). -/
structure Align2 where
  x : Align
  y : Align
deriving DecidableEq

/-- The alignment `Align2::CENTER_CENTER`. -/
def Align2.CENTER_CENTER : Align2 := ⟨Align.Center, Align.Center⟩

/-- Screen-space rectangle (egui `Rect`). -/
structure Rect where
  min : Pos2
  max : Pos2
deriving DecidableEq

/-- Mirrors `Rect::from_min_size(pos, size)`. -/
def Rect.fromMinSize (pos : Pos2) (size : ℚ × ℚ) : Rect :=
  ⟨pos, ⟨pos.x + size.1, pos.y + size.2⟩⟩

/-- Width of a rectangle. -/
def Rect.width (r : Rect) : ℚ := r.max.x - r.min.x

/-- Height of a rectangle. -/
def Rect.height (r : Rect) : ℚ := r.max.y - r.min.y

/-- Mirrors `Rect::expand(amnt)`: grow the rectangle by `amnt` on every side. -/
def Rect.expand (r : Rect) (amnt : ℚ) : Rect :=
  ⟨⟨r.min.x - amnt, r.min.y - amnt⟩, ⟨r.max.x + amnt, r.max.y + amnt⟩⟩

/-- Shift of an anchored coordinate for one axis: `Min` keeps the min edge on
the anchor, `Center` centers the extent on it, `Max` puts the max edge on it. -/
def Align.anchorOffset (a : Align) (extent : ℚ) : ℚ :=
  match a with
  | Align.Min => 0
  | Align.Center => extent / 2
  | Align.Max => extent

/-- Modelled from the spec: `Align2::anchor_rect` "positions the text's
bounding rectangle relative to that anchor according to the configured
two-axis alignment (default: centered on both axes)".  The rectangle's min
corner is shifted back along each axis by the alignment's share of the
extent, keeping the size. -/
def Align2.anchorRect (a : Align2) (rect : Rect) : Rect :=
  Rect.fromMinSize
    ⟨rect.min.x - a.x.anchorOffset rect.width,
     rect.min.y - a.y.anchorOffset rect.height⟩
    (rect.width, rect.height)

/-- Drawable primitive appended to the host's shape sink (egui `Shape`).
`styledLine` is the record produced by the shared line-styling routine,
capturing the point sequence, stroke, highlight flag, and style it was
invoked with. -/
inductive Shape where
  | styledLine (points : List Pos2) (stroke : Stroke) (highlight : Bool)
      (style : LineStyle) : Shape
  | convexPolygon (points : List Pos2) (fill : Color32) (stroke : Stroke) : Shape
  | textShape (pos : Pos2) (text : String) (color : Color32) : Shape
  | rectStroke (rect : Rect) (rounding : ℚ) (stroke : Stroke) : Shape
deriving DecidableEq

/-- Modelled from the spec: the shared line-styling routine
(`LineStyle::style_line`) "converts an ordered pixel-space point sequence
plus a stroke and style enum into one or more drawable shapes, applying a
visual emphasis treatment when highlighted".  It is modelled as appending
one record that captures exactly its inputs. -/
def LineStyle.styleLine (style : LineStyle) (points : List Pos2)
    (stroke : Stroke) (highlight : Bool) : List Shape :=
  [Shape.styledLine points stroke highlight style]

/-- Value of one `f64` bounds coordinate: finite, or one of the infinities
used by the `PlotBounds::NOTHING` sentinel. -/
inductive F64 where
  | fin (q : ℚ) : F64
  | inf : F64
  | negInf : F64
deriving DecidableEq

/-- Modelled from the spec: the plot's auto-fit bounding box (`PlotBounds`),
`min`/`max` each holding coordinates for axis 0 (x, first component) and
axis 1 (y, second component). -/
structure PlotBounds where
  min : F64 × F64
  max : F64 × F64
deriving DecidableEq

/-- Modelled from the spec: the "no contribution" sentinel
`PlotBounds::NOTHING` (min at +infinity, max at -infinity on both axes). -/
def PlotBounds.NOTHING : PlotBounds :=
  ⟨(F64.inf, F64.inf), (F64.negInf, F64.negInf)⟩

/-- Modelled from the spec: the host's coordinate transform capability
(`PlotTransform`): "domain-to-pixel conversion for a point, for an x-value
alone, for a y-value alone; and read access to the currently visible domain
bounding box".  Only the right edge `bounds().max[0]` of the visible bounds
is read by this module, so only it is carried; a drawable view's bounds are
finite.  Conversion is componentwise: a point's screen x depends only on its
domain x and its screen y only on its domain y. -/
structure PlotTransform where
  boundsMaxX : ℚ
  posX : ℚ → ℚ
  posY : ℚ → ℚ

/-- Mirrors `PlotTransform::position_from_point`: componentwise conversion. -/
def PlotTransform.positionFromPoint (tf : PlotTransform) (p : PlotPoint) : Pos2 :=
  ⟨tf.posX p.x, tf.posY p.y⟩

/-- Mirrors `PlotTransform::position_from_point_x`. -/
def PlotTransform.positionFromPointX (tf : PlotTransform) (v : ℚ) : ℚ := tf.posX v

/-- Mirrors `PlotTransform::position_from_point_y`. -/
def PlotTransform.positionFromPointY (tf : PlotTransform) (v : ℚ) : ℚ := tf.posY v

/-- Rounding to the nearest integer, half away from zero, as Rust's
`f32::round` does. -/
def roundRust (q : ℚ) : ℤ :=
  if 0 ≤ q then ⌊q + 1 / 2⌋ else -⌊-q + 1 / 2⌋

/-- Modelled from the spec: the host UI handle.  It supplies the painter's
pixels-per-point factor (used by the pixel-rounding utility), "the host UI's
current default text color", and the text layout capability (text measured
with the small text style, unwrapped), abstracted as a size per text. -/
structure Ui where
  pixelsPerPoint : ℚ
  textColor : Color32
  galleySize : String → ℚ × ℚ

/-- Modelled from the spec: the pixel-rounding utility
(`Painter::round_to_pixel`): scale a point coordinate to pixels, round to
the nearest pixel, scale back. -/
def roundToPixel (ppp : ℚ) (x : ℚ) : ℚ := (roundRust (x * ppp) : ℚ) / ppp

/-- Mirrors `Painter::round_pos_to_pixels`: round both coordinates. -/
def roundPosToPixels (ppp : ℚ) (p : Pos2) : Pos2 :=
  ⟨roundToPixel ppp p.x, roundToPixel ppp p.y⟩

/-- Modelled from the spec: `DEFAULT_FILL_ALPHA`, the "fixed fill-alpha
constant" used to attenuate the stroke color into a default fill color. -/
def DEFAULT_FILL_ALPHA : ℚ := 1 / 20

/-- Queryable raw geometry of a plot item (`PlotGeometry`); these items
report no geometry. -/
inductive PlotGeometry where
  | none : PlotGeometry
  | points : PlotGeometry
deriving DecidableEq

/-- Horizontal ray from a fixed domain point to the right edge of the
visible domain (struct `HRay` of `new_items.rs`). -/
structure HRay where
  point : PlotPoint
  stroke : Stroke
  name : String
  highlight : Bool
  style : LineStyle
deriving DecidableEq

/-- Mirrors `HRay::new(point)`. -/
def HRay.new (point : PlotPoint) : HRay :=
  ⟨point, Stroke.new 1 Color32.TRANSPARENT, "", false, LineStyle.Solid⟩

/-- Builder `HRay::highlight(bool)` (renamed: the field takes the name). -/
def HRay.highlightWith (h : HRay) (highlight : Bool) : HRay :=
  { h with highlight := highlight }

/-- Builder `HRay::stroke`. -/
def HRay.strokeWith (h : HRay) (stroke : Stroke) : HRay :=
  { h with stroke := stroke }

/-- Builder `HRay::width`. -/
def HRay.widthWith (h : HRay) (width : ℚ) : HRay :=
  { h with stroke := { h.stroke with width := width } }

/-- Builder `HRay::color`. -/
def HRay.colorWith (h : HRay) (color : Color32) : HRay :=
  { h with stroke := { h.stroke with color := color } }

/-- Builder `HRay::style`. -/
def HRay.styleWith (h : HRay) (style : LineStyle) : HRay :=
  { h with style := style }

/-- Builder `HRay::name`. -/
def HRay.nameWith (h : HRay) (name : String) : HRay :=
  { h with name := name }

/-- The two screen points computed inside `HRay::shapes` (the `points` vec):
the pixel-rounded transforms of the ray's own point and of the point at the
visible right edge with the same y. -/
def HRay.screenPoints (h : HRay) (ui : Ui) (tf : PlotTransform) : Pos2 × Pos2 :=
  (roundPosToPixels ui.pixelsPerPoint
      (tf.positionFromPoint (PlotPoint.new h.point.x h.point.y)),
   roundPosToPixels ui.pixelsPerPoint
      (tf.positionFromPoint (PlotPoint.new tf.boundsMaxX h.point.y)))

/-- Mirrors `PlotItem::shapes` for `HRay`. -/
def HRay.shapes (h : HRay) (ui : Ui) (tf : PlotTransform) : List Shape :=
  h.style.styleLine [(h.screenPoints ui tf).1, (h.screenPoints ui tf).2]
    h.stroke h.highlight

/-- Trait method `PlotItem::initialize` for `HRay`; a no-op. -/
def HRay.init (h : HRay) (xRange : ℚ × ℚ) : HRay := h

/-- Trait accessor `PlotItem::color` for `HRay`. -/
def HRay.colorAcc (h : HRay) : Color32 := h.stroke.color

/-- Trait mutator `PlotItem::highlight` for `HRay`: sets the flag true. -/
def HRay.highlightMut (h : HRay) : HRay := { h with highlight := true }

/-- Trait accessor `PlotItem::highlighted` for `HRay`. -/
def HRay.highlighted (h : HRay) : Bool := h.highlight

/-- Trait method `PlotItem::geometry` for `HRay`. -/
def HRay.geometry (h : HRay) : PlotGeometry := PlotGeometry.none

/-- Mirrors `PlotItem::bounds` for `HRay`: start from `NOTHING`, then set
`min[0]`, `min[1]` and `max[1]` from the point. -/
def HRay.bounds (h : HRay) : PlotBounds :=
  let bounds := PlotBounds.NOTHING
  { bounds with
      min := (F64.fin h.point.x, F64.fin h.point.y)
      max := (bounds.max.1, F64.fin h.point.y) }

/-- Ray anchored a fixed pixel distance from the view's right edge at a
domain y (struct `LinkedYHRay` of `new_items.rs`). -/
structure LinkedYHRay where
  y : ℚ
  offset : ℚ
  stroke : Stroke
  name : String
  highlight : Bool
  style : LineStyle
deriving DecidableEq

/-- Mirrors `LinkedYHRay::new(y, offset)`. -/
def LinkedYHRay.new (y : ℚ) (offset : ℚ) : LinkedYHRay :=
  ⟨y, offset, Stroke.new 1 Color32.TRANSPARENT, "", false, LineStyle.Solid⟩

/-- Builder `LinkedYHRay::highlight(bool)`. -/
def LinkedYHRay.highlightWith (h : LinkedYHRay) (highlight : Bool) : LinkedYHRay :=
  { h with highlight := highlight }

/-- Builder `LinkedYHRay::stroke`. -/
def LinkedYHRay.strokeWith (h : LinkedYHRay) (stroke : Stroke) : LinkedYHRay :=
  { h with stroke := stroke }

/-- Builder `LinkedYHRay::width`. -/
def LinkedYHRay.widthWith (h : LinkedYHRay) (width : ℚ) : LinkedYHRay :=
  { h with stroke := { h.stroke with width := width } }

/-- Builder `LinkedYHRay::color`. -/
def LinkedYHRay.colorWith (h : LinkedYHRay) (color : Color32) : LinkedYHRay :=
  { h with stroke := { h.stroke with color := color } }

/-- Builder `LinkedYHRay::style`. -/
def LinkedYHRay.styleWith (h : LinkedYHRay) (style : LineStyle) : LinkedYHRay :=
  { h with style := style }

/-- Builder `LinkedYHRay::name`. -/
def LinkedYHRay.nameWith (h : LinkedYHRay) (name : String) : LinkedYHRay :=
  { h with name := name }

/-- The two screen points computed inside `LinkedYHRay::shapes`: the start is
the right edge's screen x minus the pixel offset, at the y-value's screen y;
the end is the transform of the point (right edge, y); both pixel-rounded. -/
def LinkedYHRay.screenPoints (h : LinkedYHRay) (ui : Ui) (tf : PlotTransform) :
    Pos2 × Pos2 :=
  (roundPosToPixels ui.pixelsPerPoint
      (pos2 (tf.positionFromPointX tf.boundsMaxX - h.offset)
            (tf.positionFromPointY h.y)),
   roundPosToPixels ui.pixelsPerPoint
      (tf.positionFromPoint (PlotPoint.new tf.boundsMaxX h.y)))

/-- Mirrors `PlotItem::shapes` for `LinkedYHRay`. -/
def LinkedYHRay.shapes (h : LinkedYHRay) (ui : Ui) (tf : PlotTransform) :
    List Shape :=
  h.style.styleLine [(h.screenPoints ui tf).1, (h.screenPoints ui tf).2]
    h.stroke h.highlight

/-- Trait method `PlotItem::initialize` for `LinkedYHRay`; a no-op. -/
def LinkedYHRay.init (h : LinkedYHRay) (xRange : ℚ × ℚ) : LinkedYHRay := h

/-- Trait accessor `PlotItem::color` for `LinkedYHRay`. -/
def LinkedYHRay.colorAcc (h : LinkedYHRay) : Color32 := h.stroke.color

/-- Trait mutator `PlotItem::highlight` for `LinkedYHRay`. -/
def LinkedYHRay.highlightMut (h : LinkedYHRay) : LinkedYHRay :=
  { h with highlight := true }

/-- Trait accessor `PlotItem::highlighted` for `LinkedYHRay`. -/
def LinkedYHRay.highlighted (h : LinkedYHRay) : Bool := h.highlight

/-- Trait method `PlotItem::geometry` for `LinkedYHRay`. -/
def LinkedYHRay.geometry (h : LinkedYHRay) : PlotGeometry := PlotGeometry.none

/-- Mirrors `PlotItem::bounds` for `LinkedYHRay`: start from `NOTHING`, then
set `min[1]` and `max[1]` to the configured y. -/
def LinkedYHRay.bounds (h : LinkedYHRay) : PlotBounds :=
  let bounds := PlotBounds.NOTHING
  { bounds with
      min := (bounds.min.1, F64.fin h.y)
      max := (bounds.max.1, F64.fin h.y) }

/-- Text label anchored at a y-value, pixel-offset from the right edge
(struct `LinkedYText` of `new_items.rs`). -/
structure LinkedYText where
  text : String
  y : ℚ
  offset : ℚ
  name : String
  highlight : Bool
  color : Color32
  anchor : Align2
deriving DecidableEq

/-- Mirrors `LinkedYText::new(y, offset, text)`. -/
def LinkedYText.new (y : ℚ) (offset : ℚ) (text : String) : LinkedYText :=
  ⟨text, y, offset, "", false, Color32.TRANSPARENT, Align2.CENTER_CENTER⟩

/-- Builder `LinkedYText::highlight(bool)`. -/
def LinkedYText.highlightWith (t : LinkedYText) (highlight : Bool) : LinkedYText :=
  { t with highlight := highlight }

/-- Builder `LinkedYText::color`. -/
def LinkedYText.colorWith (t : LinkedYText) (color : Color32) : LinkedYText :=
  { t with color := color }

/-- Builder `LinkedYText::anchor`. -/
def LinkedYText.anchorWith (t : LinkedYText) (anchor : Align2) : LinkedYText :=
  { t with anchor := anchor }

/-- Builder `LinkedYText::name`. -/
def LinkedYText.nameWith (t : LinkedYText) (name : String) : LinkedYText :=
  { t with name := name }

/-- The per-frame resolved render color of `LinkedYText::shapes`: the host
UI's current default text color when the configured color is the transparent
default, the configured color otherwise. -/
def LinkedYText.resolvedColor (t : LinkedYText) (ui : Ui) : Color32 :=
  if t.color = Color32.TRANSPARENT then ui.textColor else t.color

/-- Mirrors `PlotItem::shapes` for `LinkedYText`: lay the text out, anchor
its rectangle at (right-edge screen x minus offset, y-value's screen y),
push the text shape, and when highlighted also a 2-px-expanded rectangle
outline in the same resolved color. -/
def LinkedYText.shapes (t : LinkedYText) (ui : Ui) (tf : PlotTransform) :
    List Shape :=
  let color := t.resolvedColor ui
  let pos := pos2 (tf.positionFromPointX tf.boundsMaxX - t.offset)
                  (tf.positionFromPointY t.y)
  let rect := t.anchor.anchorRect (Rect.fromMinSize pos (ui.galleySize t.text))
  [Shape.textShape rect.min t.text color] ++
    (if t.highlight
      then [Shape.rectStroke (rect.expand 2) 1 (Stroke.new (1 / 2) color)]
      else [])

/-- Trait method `PlotItem::initialize` for `LinkedYText`; a no-op. -/
def LinkedYText.init (t : LinkedYText) (xRange : ℚ × ℚ) : LinkedYText := t

/-- Trait accessor `PlotItem::color` for `LinkedYText`: the stored field. -/
def LinkedYText.colorAcc (t : LinkedYText) : Color32 := t.color

/-- Trait mutator `PlotItem::highlight` for `LinkedYText`. -/
def LinkedYText.highlightMut (t : LinkedYText) : LinkedYText :=
  { t with highlight := true }

/-- Trait accessor `PlotItem::highlighted` for `LinkedYText`. -/
def LinkedYText.highlighted (t : LinkedYText) : Bool := t.highlight

/-- Trait method `PlotItem::geometry` for `LinkedYText`. -/
def LinkedYText.geometry (t : LinkedYText) : PlotGeometry := PlotGeometry.none

/-- Mirrors `PlotItem::bounds` for `LinkedYText`. -/
def LinkedYText.bounds (t : LinkedYText) : PlotBounds :=
  let bounds := PlotBounds.NOTHING
  { bounds with
      min := (bounds.min.1, F64.fin t.y)
      max := (bounds.max.1, F64.fin t.y) }

/-- Polygon of pixel-space offset points anchored at a y-value and the
right edge (struct `LinkedYPolygon` of `new_items.rs`). -/
structure LinkedYPolygon where
  series : List Pos2
  y : ℚ
  stroke : Stroke
  name : String
  highlight : Bool
  fillColor : Option Color32
  style : LineStyle
deriving DecidableEq

/-- Mirrors `LinkedYPolygon::new(series, y)`. -/
def LinkedYPolygon.new (series : List Pos2) (y : ℚ) : LinkedYPolygon :=
  ⟨series, y, Stroke.new 1 Color32.TRANSPARENT, "", false, Option.none,
   LineStyle.Solid⟩

/-- Builder `LinkedYPolygon::highlight(bool)`. -/
def LinkedYPolygon.highlightWith (p : LinkedYPolygon) (highlight : Bool) :
    LinkedYPolygon :=
  { p with highlight := highlight }

/-- Builder `LinkedYPolygon::stroke`. -/
def LinkedYPolygon.strokeWith (p : LinkedYPolygon) (stroke : Stroke) :
    LinkedYPolygon :=
  { p with stroke := stroke }

/-- Builder `LinkedYPolygon::width`. -/
def LinkedYPolygon.widthWith (p : LinkedYPolygon) (width : ℚ) : LinkedYPolygon :=
  { p with stroke := { p.stroke with width := width } }

/-- Builder `LinkedYPolygon::fill_color`: always stores `some`. -/
def LinkedYPolygon.fillColorWith (p : LinkedYPolygon) (color : Color32) :
    LinkedYPolygon :=
  { p with fillColor := Option.some color }

/-- Builder `LinkedYPolygon::style`. -/
def LinkedYPolygon.styleWith (p : LinkedYPolygon) (style : LineStyle) :
    LinkedYPolygon :=
  { p with style := style }

/-- Builder `LinkedYPolygon::name`. -/
def LinkedYPolygon.nameWith (p : LinkedYPolygon) (name : String) :
    LinkedYPolygon :=
  { p with name := name }

/-- The translated point sequence of `LinkedYPolygon::shapes` (`values_tf`):
every series point shifted by the anchor (right edge's screen x, the
y-value's screen y). -/
def LinkedYPolygon.translated (p : LinkedYPolygon) (tf : PlotTransform) :
    List Pos2 :=
  let x := tf.positionFromPointX tf.boundsMaxX
  let y := tf.positionFromPointY p.y
  p.series.map (fun v => pos2 (x + v.x) (y + v.y))

/-- The fill color `LinkedYPolygon::shapes` uses: the explicit override when
set, otherwise the stroke color attenuated by `DEFAULT_FILL_ALPHA`. -/
def LinkedYPolygon.usedFill (p : LinkedYPolygon) : Color32 :=
  p.fillColor.getD (p.stroke.color.linearMultiply DEFAULT_FILL_ALPHA)

/-- Mirrors `PlotItem::shapes` for `LinkedYPolygon`.  The source pushes the
filled convex polygon, then appends a copy of the first translated point
(`values_tf.first().unwrap()`) to close the outline, and style-lines the
result; the `unwrap` panics when the series is empty, modelled as `none`. -/
def LinkedYPolygon.shapes (p : LinkedYPolygon) (ui : Ui) (tf : PlotTransform) :
    Option (List Shape) :=
  let values_tf := p.translated tf
  match values_tf.head? with
  | Option.none => Option.none
  | Option.some fst =>
      Option.some
        ([Shape.convexPolygon values_tf p.usedFill Stroke.NONE] ++
          p.style.styleLine (values_tf ++ [fst]) p.stroke p.highlight)

/-- Trait method `PlotItem::initialize` for `LinkedYPolygon`; a no-op. -/
def LinkedYPolygon.init (p : LinkedYPolygon) (xRange : ℚ × ℚ) : LinkedYPolygon := p

/-- Trait accessor `PlotItem::color` for `LinkedYPolygon`. -/
def LinkedYPolygon.colorAcc (p : LinkedYPolygon) : Color32 := p.stroke.color

/-- Trait mutator `PlotItem::highlight` for `LinkedYPolygon`. -/
def LinkedYPolygon.highlightMut (p : LinkedYPolygon) : LinkedYPolygon :=
  { p with highlight := true }

/-- Trait accessor `PlotItem::highlighted` for `LinkedYPolygon`. -/
def LinkedYPolygon.highlighted (p : LinkedYPolygon) : Bool := p.highlight

/-- Trait method `PlotItem::geometry` for `LinkedYPolygon`. -/
def LinkedYPolygon.geometry (p : LinkedYPolygon) : PlotGeometry :=
  PlotGeometry.none

/-- Mirrors `PlotItem::bounds` for `LinkedYPolygon`. -/
def LinkedYPolygon.bounds (p : LinkedYPolygon) : PlotBounds :=
  let bounds := PlotBounds.NOTHING
  { bounds with
      min := (bounds.min.1, F64.fin p.y)
      max := (bounds.max.1, F64.fin p.y) }

/-- Sample series for concrete instantiations: the specification scenario
`[(0,0), (10,0), (5,-10)]`. -/
def sampleSeries : List Pos2 := [pos2 0 0, pos2 10 0, pos2 5 (-10)]

/-- Sample polygon `LinkedYPolygon::new(series, 5.0)` from the scenario. -/
def samplePoly : LinkedYPolygon := LinkedYPolygon.new sampleSeries 5

/-- Sample transform whose right edge (domain x 10) lands at screen x 200
and whose y conversion maps the configured y 5 to screen y 80, matching the
scenario's anchor pixel (200, 80). -/
def sampleTf : PlotTransform := ⟨10, fun v => 20 * v, fun v => 16 * v⟩

/-- Sample UI with one pixel per point. -/
def sampleUi : Ui := ⟨1, Color32.TRANSPARENT, fun _ => (0, 0)⟩

/-- Sample linked ray for concrete instantiations. -/
def sampleRay : LinkedYHRay := LinkedYHRay.new 0 0

/-- Rounding half away from zero moves a rational by at most one half. -/
theorem roundRust_sub_le (q : ℚ) : |(roundRust q : ℚ) - q| ≤ 1 / 2 := by
  rw [roundRust]
  rcases le_or_lt 0 q with h | h
  · rw [if_pos h, abs_le]
    have h1 : ((⌊q + 1 / 2⌋ : ℤ) : ℚ) ≤ q + 1 / 2 := Int.floor_le _
    have h2 : q + 1 / 2 - 1 < ((⌊q + 1 / 2⌋ : ℤ) : ℚ) := Int.sub_one_lt_floor _
    constructor <;> linarith
  · rw [if_neg (not_le.mpr h), abs_le]
    have h1 : ((⌊-q + 1 / 2⌋ : ℤ) : ℚ) ≤ -q + 1 / 2 := Int.floor_le _
    have h2 : -q + 1 / 2 - 1 < ((⌊-q + 1 / 2⌋ : ℤ) : ℚ) := Int.sub_one_lt_floor _
    push_cast
    constructor <;> linarith

/-- Pixel rounding moves a coordinate by at most half a pixel
(`1 / (2 * ppp)` in points). -/
theorem roundToPixel_sub_le (ppp x : ℚ) (h : 0 < ppp) :
    |roundToPixel ppp x - x| ≤ 1 / (2 * ppp) := by
  have h1 := roundRust_sub_le (x * ppp)
  have hx : roundToPixel ppp x - x = ((roundRust (x * ppp) : ℚ) - x * ppp) / ppp := by
    rw [roundToPixel]
    field_simp
    ring
  rw [hx, abs_div, abs_of_pos h]
  calc |(roundRust (x * ppp) : ℚ) - x * ppp| / ppp ≤ (1 / 2) / ppp :=
        (div_le_div_iff_of_pos_right h).mpr h1
    _ = 1 / (2 * ppp) := by rw [div_div]

/-- Claim C3: for every `LinkedYHRay`, `LinkedYText`, and `LinkedYPolygon`,
regardless of builder configuration, `bounds()` returns a box with
`min[1] == max[1] ==` the configured y value, and both axis-0 components are
left at the `PlotBounds::NOTHING` sentinel (no x-axis contribution). -/
theorem claim_C3 :
    (∀ h : LinkedYHRay,
       h.bounds.min.2 = F64.fin h.y ∧ h.bounds.max.2 = F64.fin h.y ∧
       h.bounds.min.1 = PlotBounds.NOTHING.min.1 ∧
       h.bounds.max.1 = PlotBounds.NOTHING.max.1) ∧
    (∀ t : LinkedYText,
       t.bounds.min.2 = F64.fin t.y ∧ t.bounds.max.2 = F64.fin t.y ∧
       t.bounds.min.1 = PlotBounds.NOTHING.min.1 ∧
       t.bounds.max.1 = PlotBounds.NOTHING.max.1) ∧
    (∀ p : LinkedYPolygon,
       p.bounds.min.2 = F64.fin p.y ∧ p.bounds.max.2 = F64.fin p.y ∧
       p.bounds.min.1 = PlotBounds.NOTHING.min.1 ∧
       p.bounds.max.1 = PlotBounds.NOTHING.max.1) :=
  ⟨fun h => ⟨rfl, rfl, rfl, rfl⟩,
   fun t => ⟨rfl, rfl, rfl, rfl⟩,
   fun p => ⟨rfl, rfl, rfl, rfl⟩⟩

/-- Claim C4: for every `HRay` with point (x, y), `bounds()` returns a
degenerate box reporting only the point itself: `min[0] == x`,
`min[1] == max[1] == y`, while `max[0]` is left at the `PlotBounds::NOTHING`
sentinel, so the open-ended ray extent to the right is not in bounds. -/
theorem claim_C4 (h : HRay) :
    h.bounds.min.1 = F64.fin h.point.x ∧
    h.bounds.min.2 = F64.fin h.point.y ∧
    h.bounds.max.2 = F64.fin h.point.y ∧
    h.bounds.max.1 = PlotBounds.NOTHING.max.1 :=
  ⟨rfl, rfl, rfl, rfl⟩

/-- Claim C10: every builder configuration method changes only the field it
names and leaves every other field of the value unchanged, for every setter
of `HRay`, `LinkedYHRay`, `LinkedYText`, and `LinkedYPolygon`. -/
theorem claim_C10 :
    (∀ (h : HRay) (b : Bool), (h.highlightWith b).highlight = b ∧
       (h.highlightWith b).point = h.point ∧ (h.highlightWith b).stroke = h.stroke ∧
       (h.highlightWith b).name = h.name ∧ (h.highlightWith b).style = h.style) ∧
    (∀ (h : HRay) (s : Stroke), (h.strokeWith s).stroke = s ∧
       (h.strokeWith s).point = h.point ∧ (h.strokeWith s).name = h.name ∧
       (h.strokeWith s).highlight = h.highlight ∧ (h.strokeWith s).style = h.style) ∧
    (∀ (h : HRay) (w : ℚ), (h.widthWith w).stroke.width = w ∧
       (h.widthWith w).stroke.color = h.stroke.color ∧
       (h.widthWith w).point = h.point ∧ (h.widthWith w).name = h.name ∧
       (h.widthWith w).highlight = h.highlight ∧ (h.widthWith w).style = h.style) ∧
    (∀ (h : HRay) (c : Color32), (h.colorWith c).stroke.color = c ∧
       (h.colorWith c).stroke.width = h.stroke.width ∧
       (h.colorWith c).point = h.point ∧ (h.colorWith c).name = h.name ∧
       (h.colorWith c).highlight = h.highlight ∧ (h.colorWith c).style = h.style) ∧
    (∀ (h : HRay) (s : LineStyle), (h.styleWith s).style = s ∧
       (h.styleWith s).point = h.point ∧ (h.styleWith s).stroke = h.stroke ∧
       (h.styleWith s).name = h.name ∧ (h.styleWith s).highlight = h.highlight) ∧
    (∀ (h : HRay) (n : String), (h.nameWith n).name = n ∧
       (h.nameWith n).point = h.point ∧ (h.nameWith n).stroke = h.stroke ∧
       (h.nameWith n).highlight = h.highlight ∧ (h.nameWith n).style = h.style) ∧
    (∀ (h : LinkedYHRay) (b : Bool), (h.highlightWith b).highlight = b ∧
       (h.highlightWith b).y = h.y ∧ (h.highlightWith b).offset = h.offset ∧
       (h.highlightWith b).stroke = h.stroke ∧
       (h.highlightWith b).name = h.name ∧ (h.highlightWith b).style = h.style) ∧
    (∀ (h : LinkedYHRay) (s : Stroke), (h.strokeWith s).stroke = s ∧
       (h.strokeWith s).y = h.y ∧ (h.strokeWith s).offset = h.offset ∧
       (h.strokeWith s).name = h.name ∧
       (h.strokeWith s).highlight = h.highlight ∧ (h.strokeWith s).style = h.style) ∧
    (∀ (h : LinkedYHRay) (w : ℚ), (h.widthWith w).stroke.width = w ∧
       (h.widthWith w).stroke.color = h.stroke.color ∧
       (h.widthWith w).y = h.y ∧ (h.widthWith w).offset = h.offset ∧
       (h.widthWith w).name = h.name ∧
       (h.widthWith w).highlight = h.highlight ∧ (h.widthWith w).style = h.style) ∧
    (∀ (h : LinkedYHRay) (c : Color32), (h.colorWith c).stroke.color = c ∧
       (h.colorWith c).stroke.width = h.stroke.width ∧
       (h.colorWith c).y = h.y ∧ (h.colorWith c).offset = h.offset ∧
       (h.colorWith c).name = h.name ∧
       (h.colorWith c).highlight = h.highlight ∧ (h.colorWith c).style = h.style) ∧
    (∀ (h : LinkedYHRay) (s : LineStyle), (h.styleWith s).style = s ∧
       (h.styleWith s).y = h.y ∧ (h.styleWith s).offset = h.offset ∧
       (h.styleWith s).stroke = h.stroke ∧
       (h.styleWith s).name = h.name ∧ (h.styleWith s).highlight = h.highlight) ∧
    (∀ (h : LinkedYHRay) (n : String), (h.nameWith n).name = n ∧
       (h.nameWith n).y = h.y ∧ (h.nameWith n).offset = h.offset ∧
       (h.nameWith n).stroke = h.stroke ∧
       (h.nameWith n).highlight = h.highlight ∧ (h.nameWith n).style = h.style) ∧
    (∀ (t : LinkedYText) (b : Bool), (t.highlightWith b).highlight = b ∧
       (t.highlightWith b).text = t.text ∧ (t.highlightWith b).y = t.y ∧
       (t.highlightWith b).offset = t.offset ∧ (t.highlightWith b).name = t.name ∧
       (t.highlightWith b).color = t.color ∧ (t.highlightWith b).anchor = t.anchor) ∧
    (∀ (t : LinkedYText) (c : Color32), (t.colorWith c).color = c ∧
       (t.colorWith c).text = t.text ∧ (t.colorWith c).y = t.y ∧
       (t.colorWith c).offset = t.offset ∧ (t.colorWith c).name = t.name ∧
       (t.colorWith c).highlight = t.highlight ∧ (t.colorWith c).anchor = t.anchor) ∧
    (∀ (t : LinkedYText) (a : Align2), (t.anchorWith a).anchor = a ∧
       (t.anchorWith a).text = t.text ∧ (t.anchorWith a).y = t.y ∧
       (t.anchorWith a).offset = t.offset ∧ (t.anchorWith a).name = t.name ∧
       (t.anchorWith a).highlight = t.highlight ∧ (t.anchorWith a).color = t.color) ∧
    (∀ (t : LinkedYText) (n : String), (t.nameWith n).name = n ∧
       (t.nameWith n).text = t.text ∧ (t.nameWith n).y = t.y ∧
       (t.nameWith n).offset = t.offset ∧ (t.nameWith n).highlight = t.highlight ∧
       (t.nameWith n).color = t.color ∧ (t.nameWith n).anchor = t.anchor) ∧
    (∀ (p : LinkedYPolygon) (b : Bool), (p.highlightWith b).highlight = b ∧
       (p.highlightWith b).series = p.series ∧ (p.highlightWith b).y = p.y ∧
       (p.highlightWith b).stroke = p.stroke ∧ (p.highlightWith b).name = p.name ∧
       (p.highlightWith b).fillColor = p.fillColor ∧
       (p.highlightWith b).style = p.style) ∧
    (∀ (p : LinkedYPolygon) (s : Stroke), (p.strokeWith s).stroke = s ∧
       (p.strokeWith s).series = p.series ∧ (p.strokeWith s).y = p.y ∧
       (p.strokeWith s).name = p.name ∧ (p.strokeWith s).highlight = p.highlight ∧
       (p.strokeWith s).fillColor = p.fillColor ∧
       (p.strokeWith s).style = p.style) ∧
    (∀ (p : LinkedYPolygon) (w : ℚ), (p.widthWith w).stroke.width = w ∧
       (p.widthWith w).stroke.color = p.stroke.color ∧
       (p.widthWith w).series = p.series ∧ (p.widthWith w).y = p.y ∧
       (p.widthWith w).name = p.name ∧ (p.widthWith w).highlight = p.highlight ∧
       (p.widthWith w).fillColor = p.fillColor ∧
       (p.widthWith w).style = p.style) ∧
    (∀ (p : LinkedYPolygon) (c : Color32),
       (p.fillColorWith c).fillColor = Option.some c ∧
       (p.fillColorWith c).series = p.series ∧ (p.fillColorWith c).y = p.y ∧
       (p.fillColorWith c).stroke = p.stroke ∧ (p.fillColorWith c).name = p.name ∧
       (p.fillColorWith c).highlight = p.highlight ∧
       (p.fillColorWith c).style = p.style) ∧
    (∀ (p : LinkedYPolygon) (s : LineStyle), (p.styleWith s).style = s ∧
       (p.styleWith s).series = p.series ∧ (p.styleWith s).y = p.y ∧
       (p.styleWith s).stroke = p.stroke ∧ (p.styleWith s).name = p.name ∧
       (p.styleWith s).highlight = p.highlight ∧
       (p.styleWith s).fillColor = p.fillColor) ∧
    (∀ (p : LinkedYPolygon) (n : String), (p.nameWith n).name = n ∧
       (p.nameWith n).series = p.series ∧ (p.nameWith n).y = p.y ∧
       (p.nameWith n).stroke = p.stroke ∧ (p.nameWith n).highlight = p.highlight ∧
       (p.nameWith n).fillColor = p.fillColor ∧
       (p.nameWith n).style = p.style) :=
  ⟨fun h b => ⟨rfl, rfl, rfl, rfl, rfl⟩,
   fun h s => ⟨rfl, rfl, rfl, rfl, rfl⟩,
   fun h w => ⟨rfl, rfl, rfl, rfl, rfl, rfl⟩,
   fun h c => ⟨rfl, rfl, rfl, rfl, rfl, rfl⟩,
   fun h s => ⟨rfl, rfl, rfl, rfl, rfl⟩,
   fun h n => ⟨rfl, rfl, rfl, rfl, rfl⟩,
   fun h b => ⟨rfl, rfl, rfl, rfl, rfl, rfl⟩,
   fun h s => ⟨rfl, rfl, rfl, rfl, rfl, rfl⟩,
   fun h w => ⟨rfl, rfl, rfl, rfl, rfl, rfl, rfl⟩,
   fun h c => ⟨rfl, rfl, rfl, rfl, rfl, rfl, rfl⟩,
   fun h s => ⟨rfl, rfl, rfl, rfl, rfl, rfl⟩,
   fun h n => ⟨rfl, rfl, rfl, rfl, rfl, rfl⟩,
   fun t b => ⟨rfl, rfl, rfl, rfl, rfl, rfl, rfl⟩,
   fun t c => ⟨rfl, rfl, rfl, rfl, rfl, rfl, rfl⟩,
   fun t a => ⟨rfl, rfl, rfl, rfl, rfl, rfl, rfl⟩,
   fun t n => ⟨rfl, rfl, rfl, rfl, rfl, rfl, rfl⟩,
   fun p b => ⟨rfl, rfl, rfl, rfl, rfl, rfl, rfl⟩,
   fun p s => ⟨rfl, rfl, rfl, rfl, rfl, rfl, rfl⟩,
   fun p w => ⟨rfl, rfl, rfl, rfl, rfl, rfl, rfl, rfl⟩,
   fun p c => ⟨rfl, rfl, rfl, rfl, rfl, rfl, rfl⟩,
   fun p s => ⟨rfl, rfl, rfl, rfl, rfl, rfl, rfl⟩,
   fun p n => ⟨rfl, rfl, rfl, rfl, rfl, rfl, rfl⟩⟩

/-- Claim C2, counterexample: the builder-style `highlight(bool)` method is
an exposed operation that clears the flag back to false after the
trait-level highlight mutator has set it. -/
theorem claim_C2_cex :
    ((HRay.new (PlotPoint.new 0 0)).highlightMut.highlightWith false).highlighted
      = false := rfl

/-- Claim C2 (amended): for every item of the four types, the trait-level
highlight mutator sets `highlighted()` to true and is idempotent; the
trait-level `initialize` and every builder method other than the
builder-style `highlight(bool)` preserve the flag; the builder-style
`highlight(b)` sets the flag to exactly its argument, and can therefore
clear it. -/
theorem claim_C2 :
    (∀ h : HRay, h.highlightMut.highlighted = true ∧
       h.highlightMut.highlightMut = h.highlightMut ∧
       (∀ r, (h.init r).highlighted = h.highlighted) ∧
       (∀ s, (h.strokeWith s).highlighted = h.highlighted) ∧
       (∀ w, (h.widthWith w).highlighted = h.highlighted) ∧
       (∀ c, (h.colorWith c).highlighted = h.highlighted) ∧
       (∀ s, (h.styleWith s).highlighted = h.highlighted) ∧
       (∀ n, (h.nameWith n).highlighted = h.highlighted) ∧
       (∀ b, (h.highlightWith b).highlighted = b)) ∧
    (∀ h : LinkedYHRay, h.highlightMut.highlighted = true ∧
       h.highlightMut.highlightMut = h.highlightMut ∧
       (∀ r, (h.init r).highlighted = h.highlighted) ∧
       (∀ s, (h.strokeWith s).highlighted = h.highlighted) ∧
       (∀ w, (h.widthWith w).highlighted = h.highlighted) ∧
       (∀ c, (h.colorWith c).highlighted = h.highlighted) ∧
       (∀ s, (h.styleWith s).highlighted = h.highlighted) ∧
       (∀ n, (h.nameWith n).highlighted = h.highlighted) ∧
       (∀ b, (h.highlightWith b).highlighted = b)) ∧
    (∀ t : LinkedYText, t.highlightMut.highlighted = true ∧
       t.highlightMut.highlightMut = t.highlightMut ∧
       (∀ r, (t.init r).highlighted = t.highlighted) ∧
       (∀ c, (t.colorWith c).highlighted = t.highlighted) ∧
       (∀ a, (t.anchorWith a).highlighted = t.highlighted) ∧
       (∀ n, (t.nameWith n).highlighted = t.highlighted) ∧
       (∀ b, (t.highlightWith b).highlighted = b)) ∧
    (∀ p : LinkedYPolygon, p.highlightMut.highlighted = true ∧
       p.highlightMut.highlightMut = p.highlightMut ∧
       (∀ r, (p.init r).highlighted = p.highlighted) ∧
       (∀ s, (p.strokeWith s).highlighted = p.highlighted) ∧
       (∀ w, (p.widthWith w).highlighted = p.highlighted) ∧
       (∀ c, (p.fillColorWith c).highlighted = p.highlighted) ∧
       (∀ s, (p.styleWith s).highlighted = p.highlighted) ∧
       (∀ n, (p.nameWith n).highlighted = p.highlighted) ∧
       (∀ b, (p.highlightWith b).highlighted = b)) :=
  ⟨fun h => ⟨rfl, rfl, fun r => rfl, fun s => rfl, fun w => rfl, fun c => rfl,
     fun s => rfl, fun n => rfl, fun b => rfl⟩,
   fun h => ⟨rfl, rfl, fun r => rfl, fun s => rfl, fun w => rfl, fun c => rfl,
     fun s => rfl, fun n => rfl, fun b => rfl⟩,
   fun t => ⟨rfl, rfl, fun r => rfl, fun c => rfl, fun a => rfl,
     fun n => rfl, fun b => rfl⟩,
   fun p => ⟨rfl, rfl, fun r => rfl, fun s => rfl, fun w => rfl, fun c => rfl,
     fun s => rfl, fun n => rfl, fun b => rfl⟩⟩

/-- Claim C1, counterexample: `LinkedYPolygon::shapes` does not complete on
the empty series: the translated point list is empty, so the unwrap of its
first element is reached with no value (a panic, modelled as `none`). -/
theorem claim_C1_cex :
    (LinkedYPolygon.new [] 0).shapes
      ⟨1, Color32.TRANSPARENT, fun _ => (0, 0)⟩
      ⟨0, fun v => v, fun v => v⟩ = Option.none := rfl

/-- Claim C1 (amended): the render operation of `HRay`, `LinkedYHRay`, and
`LinkedYText` completes for every value and transform (they are total
functions of the embedding), and `LinkedYPolygon::shapes` completes exactly
for the non-empty series: on the empty series the unwrap of the first
translated point fails. -/
theorem claim_C1 (p : LinkedYPolygon) (h : HRay) (hl : LinkedYHRay)
    (t : LinkedYText) (ui : Ui) (tf : PlotTransform) :
    ((p.shapes ui tf).isSome = true ↔ p.series ≠ []) ∧
    (h.shapes ui tf).length = 1 ∧ (hl.shapes ui tf).length = 1 ∧
    1 ≤ (t.shapes ui tf).length := by
  refine ⟨?_, rfl, rfl, ?_⟩
  · cases hs : p.series with
    | nil =>
        simp [LinkedYPolygon.shapes, LinkedYPolygon.translated, hs]
    | cons v vs =>
        simp [LinkedYPolygon.shapes, LinkedYPolygon.translated, hs]
  · rw [LinkedYText.shapes]
    simp

/-- Claim C6: for every `HRay` with domain point (x, y) and every transform
with visible right edge R, `shapes()` produces exactly two screen points
sharing the same transformed-and-rounded y coordinate and differing only in
x, and those points are the pixel-rounded transforms of the domain points
(x, y) and (R, y). -/
theorem claim_C6 (h : HRay) (ui : Ui) (tf : PlotTransform) :
    h.shapes ui tf =
      [Shape.styledLine
        [roundPosToPixels ui.pixelsPerPoint (tf.positionFromPoint h.point),
         roundPosToPixels ui.pixelsPerPoint
           (tf.positionFromPoint (PlotPoint.new tf.boundsMaxX h.point.y))]
        h.stroke h.highlight h.style] ∧
    (h.screenPoints ui tf).1.y = (h.screenPoints ui tf).2.y :=
  ⟨rfl, rfl⟩

/-- Claim C7: for every `LinkedYPolygon` (rendered on a non-empty series),
the fill color used at render time is the configured stroke color attenuated
by `DEFAULT_FILL_ALPHA` when no explicit fill color has been set, and is
exactly the explicit color when `fill_color(c)` has been called, regardless
of the stroke color. -/
theorem claim_C7 (p : LinkedYPolygon) (ui : Ui) (tf : PlotTransform)
    (hne : p.series ≠ []) :
    (∃ rest, p.shapes ui tf = Option.some
        (Shape.convexPolygon (p.translated tf) p.usedFill Stroke.NONE :: rest)) ∧
    (p.fillColor = Option.none →
       p.usedFill = p.stroke.color.linearMultiply DEFAULT_FILL_ALPHA) ∧
    (∀ c : Color32, p.fillColor = Option.some c → p.usedFill = c) := by
  refine ⟨?_, ?_, ?_⟩
  · cases hs : p.series with
    | nil => exact absurd hs hne
    | cons v vs =>
        refine ⟨p.style.styleLine (p.translated tf ++
          [(p.translated tf).head (by simp [LinkedYPolygon.translated, hs])])
          p.stroke p.highlight, ?_⟩
        rw [LinkedYPolygon.shapes]
        simp [LinkedYPolygon.translated, hs, LineStyle.styleLine]
  · intro hfc
    rw [LinkedYPolygon.usedFill, hfc]
    rfl
  · intro c hfc
    rw [LinkedYPolygon.usedFill, hfc]
    rfl

/-- Claim C7, witness: instantiation at a one-point series with no explicit
fill color, a unit UI, and the identity-like transform. -/
theorem claim_C7_witness :
    (LinkedYPolygon.new [pos2 0 0] 0).series ≠ [] ∧
    ((∃ rest, (LinkedYPolygon.new [pos2 0 0] 0).shapes
        ⟨1, Color32.TRANSPARENT, fun _ => (0, 0)⟩ ⟨0, fun v => v, fun v => v⟩ =
        Option.some (Shape.convexPolygon
          ((LinkedYPolygon.new [pos2 0 0] 0).translated ⟨0, fun v => v, fun v => v⟩)
          (LinkedYPolygon.new [pos2 0 0] 0).usedFill Stroke.NONE :: rest)) ∧
     ((LinkedYPolygon.new [pos2 0 0] 0).fillColor = Option.none →
        (LinkedYPolygon.new [pos2 0 0] 0).usedFill =
          (LinkedYPolygon.new [pos2 0 0] 0).stroke.color.linearMultiply
            DEFAULT_FILL_ALPHA) ∧
     (∀ c : Color32, (LinkedYPolygon.new [pos2 0 0] 0).fillColor = Option.some c →
        (LinkedYPolygon.new [pos2 0 0] 0).usedFill = c)) :=
  ⟨by simp [LinkedYPolygon.new],
   claim_C7 (LinkedYPolygon.new [pos2 0 0] 0)
     ⟨1, Color32.TRANSPARENT, fun _ => (0, 0)⟩ ⟨0, fun v => v, fun v => v⟩
     (by simp [LinkedYPolygon.new])⟩

/-- Claim C8: for every `LinkedYText`, the render color is resolved per
frame: the host UI's current default text color when the configured color is
fully transparent (the constructor default included), the configured color
unchanged otherwise; the stored color field itself (what the trait color
accessor reads) is not modified by this resolution — `shapes` borrows the
value immutably in the source, and the embedding renders from the value
without producing an updated one. -/
theorem claim_C8 (t : LinkedYText) (ui : Ui) (tf : PlotTransform) :
    (∃ pos rest, t.shapes ui tf =
        Shape.textShape pos t.text (t.resolvedColor ui) :: rest) ∧
    (t.color = Color32.TRANSPARENT → t.resolvedColor ui = ui.textColor) ∧
    (t.color ≠ Color32.TRANSPARENT → t.resolvedColor ui = t.color) ∧
    (LinkedYText.new t.y t.offset t.text).color = Color32.TRANSPARENT ∧
    t.colorAcc = t.color := by
  refine ⟨?_, ?_, ?_, rfl, rfl⟩
  · refine ⟨(t.anchor.anchorRect (Rect.fromMinSize
        (pos2 (tf.positionFromPointX tf.boundsMaxX - t.offset)
              (tf.positionFromPointY t.y)) (ui.galleySize t.text))).min,
      if t.highlight
        then [Shape.rectStroke ((t.anchor.anchorRect (Rect.fromMinSize
          (pos2 (tf.positionFromPointX tf.boundsMaxX - t.offset)
                (tf.positionFromPointY t.y)) (ui.galleySize t.text))).expand 2) 1
          (Stroke.new (1 / 2) (t.resolvedColor ui))]
        else [], ?_⟩
    rw [LinkedYText.shapes]
    simp
  · intro hc
    rw [LinkedYText.resolvedColor, if_pos hc]
  · intro hc
    rw [LinkedYText.resolvedColor, if_neg hc]

/-- Claim C9: for every non-empty `LinkedYPolygon` series and every
transform, `shapes()` translates each offset point by the anchor pixel
position (anchor x = the screen x of the visible right edge, anchor y = the
screen y of the configured y value), appends first a filled convex-polygon
shape over exactly the translated points, then the closed outline with the
first translated point repeated at the end, styled with the configured
stroke, line style, and highlight state. -/
theorem claim_C9 (p : LinkedYPolygon) (ui : Ui) (tf : PlotTransform)
    (hne : p.series ≠ []) :
    p.translated tf = p.series.map (fun v =>
        pos2 (tf.positionFromPointX tf.boundsMaxX + v.x)
             (tf.positionFromPointY p.y + v.y)) ∧
    ∃ fst, (p.translated tf).head? = Option.some fst ∧
      p.shapes ui tf = Option.some
        [Shape.convexPolygon (p.translated tf) p.usedFill Stroke.NONE,
         Shape.styledLine (p.translated tf ++ [fst]) p.stroke p.highlight
           p.style] := by
  refine ⟨rfl, ?_⟩
  cases hs : p.series with
  | nil => exact absurd hs hne
  | cons v vs =>
      refine ⟨pos2 (tf.positionFromPointX tf.boundsMaxX + v.x)
                   (tf.positionFromPointY p.y + v.y), ?_, ?_⟩
      · simp [LinkedYPolygon.translated, hs]
      · rw [LinkedYPolygon.shapes]
        simp [LinkedYPolygon.translated, hs, LineStyle.styleLine]

/-- Claim C9, witness: instantiation at the scenario polygon, the unit UI,
and the scenario transform (anchor pixel (200, 80)). -/
theorem claim_C9_witness :
    samplePoly.series ≠ [] ∧
    (samplePoly.translated sampleTf = samplePoly.series.map (fun v =>
        pos2 (sampleTf.positionFromPointX sampleTf.boundsMaxX + v.x)
             (sampleTf.positionFromPointY samplePoly.y + v.y)) ∧
     ∃ fst, (samplePoly.translated sampleTf).head? = Option.some fst ∧
       samplePoly.shapes sampleUi sampleTf = Option.some
         [Shape.convexPolygon (samplePoly.translated sampleTf)
            samplePoly.usedFill Stroke.NONE,
          Shape.styledLine (samplePoly.translated sampleTf ++ [fst])
            samplePoly.stroke samplePoly.highlight samplePoly.style]) :=
  ⟨by simp [samplePoly, sampleSeries, LinkedYPolygon.new],
   claim_C9 samplePoly sampleUi sampleTf
     (by simp [samplePoly, sampleSeries, LinkedYPolygon.new])⟩

/-- Claim C5, counterexample: with pixels-per-point 1, y 0, pixel offset
4/5, and a transform sending the right edge to screen x 2/5, the rounded
start x is 0 and the rounded end x is 0, so the start x misses the end x
minus the offset by 4/5 of a pixel: more than the claimed ±0.5 px. -/
theorem claim_C5_cex :
    ¬ (|((LinkedYHRay.new 0 (4/5)).screenPoints
          ⟨1, Color32.TRANSPARENT, fun _ => (0, 0)⟩
          ⟨2/5, fun v => v, fun v => v⟩).1.x -
        (((LinkedYHRay.new 0 (4/5)).screenPoints
          ⟨1, Color32.TRANSPARENT, fun _ => (0, 0)⟩
          ⟨2/5, fun v => v, fun v => v⟩).2.x -
          (LinkedYHRay.new 0 (4/5)).offset)| ≤
        (1/2) / (1 : ℚ)) := by
  have h1 : roundRust (-(2/5) : ℚ) = 0 := by
    rw [roundRust, if_neg (by norm_num : ¬ (0:ℚ) ≤ -(2/5))]
    norm_num
  have h2 : roundRust (2/5 : ℚ) = 0 := by
    rw [roundRust, if_pos (by norm_num : (0:ℚ) ≤ 2/5)]
    norm_num
  simp only [LinkedYHRay.new, LinkedYHRay.screenPoints, roundPosToPixels,
    roundToPixel, pos2, PlotTransform.positionFromPointX,
    PlotTransform.positionFromPointY, PlotTransform.positionFromPoint,
    PlotPoint.new]
  norm_num [h1, h2]
  rw [abs_of_pos (by norm_num : (0:ℚ) < 4/5)]
  norm_num

/-- Claim C5 (amended): for every `LinkedYHRay`, UI with positive
pixels-per-point, and transform, the two screen points of `shapes()` share
the same rounded y coordinate, and the start point's x equals the end
point's x minus the configured offset within ±1 px (each of the two pixel
roundings contributes up to half a pixel, so the claimed ±0.5 px holds only
for the individual roundings, not their difference). -/
theorem claim_C5 (h : LinkedYHRay) (ui : Ui) (tf : PlotTransform)
    (hppp : 0 < ui.pixelsPerPoint) :
    h.shapes ui tf = [Shape.styledLine
        [(h.screenPoints ui tf).1, (h.screenPoints ui tf).2]
        h.stroke h.highlight h.style] ∧
    (h.screenPoints ui tf).1.y = (h.screenPoints ui tf).2.y ∧
    |(h.screenPoints ui tf).1.x - ((h.screenPoints ui tf).2.x - h.offset)| ≤
      1 / ui.pixelsPerPoint := by
  refine ⟨rfl, rfl, ?_⟩
  have hA := roundToPixel_sub_le ui.pixelsPerPoint
    (tf.posX tf.boundsMaxX - h.offset) hppp
  have hB := roundToPixel_sub_le ui.pixelsPerPoint (tf.posX tf.boundsMaxX) hppp
  have hsum : 1 / (2 * ui.pixelsPerPoint) + 1 / (2 * ui.pixelsPerPoint) =
      1 / ui.pixelsPerPoint := by
    have hne : ui.pixelsPerPoint ≠ 0 := ne_of_gt hppp
    field_simp
    exact Or.inl (by norm_num)
  have hxa : (h.screenPoints ui tf).1.x =
      roundToPixel ui.pixelsPerPoint (tf.posX tf.boundsMaxX - h.offset) := rfl
  have hxb : (h.screenPoints ui tf).2.x =
      roundToPixel ui.pixelsPerPoint (tf.posX tf.boundsMaxX) := rfl
  rw [hxa, hxb]
  obtain ⟨a1, a2⟩ := abs_le.mp hA
  obtain ⟨b1, b2⟩ := abs_le.mp hB
  rw [abs_le]
  constructor <;> linarith

/-- Claim C5, witness: instantiation at the sample ray, the unit UI, and
the scenario transform. -/
theorem claim_C5_witness :
    0 < sampleUi.pixelsPerPoint ∧
    (sampleRay.shapes sampleUi sampleTf = [Shape.styledLine
        [(sampleRay.screenPoints sampleUi sampleTf).1,
         (sampleRay.screenPoints sampleUi sampleTf).2]
        sampleRay.stroke sampleRay.highlight sampleRay.style] ∧
     (sampleRay.screenPoints sampleUi sampleTf).1.y =
       (sampleRay.screenPoints sampleUi sampleTf).2.y ∧
     |(sampleRay.screenPoints sampleUi sampleTf).1.x -
        ((sampleRay.screenPoints sampleUi sampleTf).2.x - sampleRay.offset)| ≤
       1 / sampleUi.pixelsPerPoint) :=
  ⟨by simp [sampleUi], claim_C5 sampleRay sampleUi sampleTf (by simp [sampleUi])⟩
